import Mathlib

/-!
Shallow embedding of `src/flasher.py` (bulk OTA updater for WLED devices).

Strings are modelled as `List Char`; HTTP interactions are modelled as
oracles supplied through environment records (one entry per call site and
call index), so each definition below mirrors one Python function of the
source.  Machine behaviour that the source observes only through exception
types and exception message substrings is modelled by an explicit
exception datatype carrying a kind and a message.
-/

namespace BulkFlashWled

/-- Lowercase a character list, modelling Python `str.lower()`. -/
def lowerL (l : List Char) : List Char := l.map Char.toLower

/-- Boolean test that `pat` is a prefix of `l` (character-wise equality). -/
def prefixEq : List Char → List Char → Bool
  | [], _ => true
  | _ :: _, [] => false
  | a :: as, b :: bs => a == b && prefixEq as bs

/-- Boolean substring containment, modelling Python `pat in s`. -/
def containsSub (pat : List Char) : List Char → Bool
  | [] => pat.isEmpty
  | c :: rest => prefixEq pat (c :: rest) || containsSub pat rest

/-- Strip whitespace from both ends, modelling Python `str.strip()`. -/
def pyStrip (l : List Char) : List Char :=
  ((l.dropWhile Char.isWhitespace).reverse.dropWhile Char.isWhitespace).reverse

/-- Keyword scanned for in upload responses (flasher.py line 184). -/
def kwSuccess : List Char := ("success").data

/-- Second keyword scanned for in upload responses (flasher.py line 184). -/
def kwUpdate : List Char := ("update").data

/-- Success test for a scheme-A HTTP 200 upload response body
(flasher.py line 184): lowercased body contains "success" or "update",
or the body is empty after stripping whitespace. -/
def bodyOk (body : List Char) : Bool :=
  containsSub kwSuccess (lowerL body) || containsSub kwUpdate (lowerL body) ||
    (pyStrip body).isEmpty

/-- Kinds of Python exceptions distinguished by flasher.py's handlers.
`connectTimeout` models `requests.exceptions.ConnectTimeout`, which in the
Python class hierarchy is both a `ConnectionError` and a `Timeout`. -/
inductive ExKind where
  | chunkedEncoding
  | connectionError
  | connectTimeout
  | readTimeout
  | otherTimeout
  | otherException
deriving DecidableEq

/-- A Python exception as observed by flasher.py: its class (kind) and the
message produced by `str(e)`. -/
structure PyExn where
  kind : ExKind
  msg : List Char

/-- Membership in `requests.exceptions.ConnectionError`. -/
def isConnectionError : ExKind → Bool
  | ExKind.connectionError => true
  | ExKind.connectTimeout => true
  | _ => false

/-- Membership in `requests.exceptions.ReadTimeout`. -/
def isReadTimeout : ExKind → Bool
  | ExKind.readTimeout => true
  | _ => false

/-- Membership in `requests.exceptions.Timeout`. -/
def isTimeoutEx : ExKind → Bool
  | ExKind.readTimeout => true
  | ExKind.connectTimeout => true
  | ExKind.otherTimeout => true
  | _ => false

/-- Membership in `requests.exceptions.ChunkedEncodingError`. -/
def isChunked : ExKind → Bool
  | ExKind.chunkedEncoding => true
  | _ => false

/-- Substring test of flasher.py line 214: the exception message signals the
device dropping the connection because it reboots after a successful flash. -/
def rebootSig (msg : List Char) : Bool :=
  containsSub (("RemoteDisconnected").data) msg ||
    containsSub (("Connection reset").data) msg ||
    containsSub (("Read timed out").data) msg

/-- Result of one `requests.post` upload call: an HTTP response
(status and body text) or a raised exception. -/
inductive UploadResult where
  | resp (status : Nat) (body : List Char)
  | exn (e : PyExn)

/-- Oracle environment for one `flash_device` call: whether the firmware
file exists, and for each attempt index the outcome of the reachability
GET (`none` models a raised `RequestException`), of the scheme-A upload
POST and of the scheme-B fallback upload POST. -/
structure FlashEnv where
  fileExists : Bool
  probe : Nat → Option Nat
  uploadA : Nat → UploadResult
  uploadB : Nat → UploadResult

/-- Control outcome of one loop iteration of `flash_device`: either the
function returns (`done b` models `return b`) or the attempt failed and the
loop continues with the next attempt (`retryNext` models `continue`). -/
inductive AttemptRes where
  | done (b : Bool)
  | retryNext
deriving DecidableEq

/-- The repeated pattern `if attempt == max_retries: return False` /
`continue` at each failure site of `flash_device`. -/
def failAttempt (maxR a : Nat) : AttemptRes :=
  if a = maxR then AttemptRes.done false else AttemptRes.retryNext

/-- The outer exception handlers of `flash_device` (lines 220-237):
`Timeout`, `ConnectionError` and the catch-all `Exception` handler all
fail the current attempt. -/
def outerHandle (maxR a : Nat) (e : PyExn) : AttemptRes :=
  if isTimeoutEx e.kind then failAttempt maxR a
  else if isConnectionError e.kind then failAttempt maxR a
  else failAttempt maxR a

/-- The inner upload exception handlers of `flash_device` (lines 207-218):
`ChunkedEncodingError` is success; `ConnectionError`/`ReadTimeout` whose
message carries a reboot signature is success, otherwise the exception is
re-raised into the outer handlers; every other exception propagates to the
outer handlers directly. -/
def handleUploadExn (maxR a : Nat) (e : PyExn) : AttemptRes :=
  if isChunked e.kind then AttemptRes.done true
  else if isConnectionError e.kind || isReadTimeout e.kind then
    if rebootSig e.msg then AttemptRes.done true
    else outerHandle maxR a e
  else outerHandle maxR a e

/-- One loop iteration of `flash_device` for attempt `a` (lines 160-218):
the reachability GET, the `open` of the firmware file, the scheme-A upload,
response classification and the optional scheme-B fallback upload.  Returns
the control outcome together with the number of upload POST calls and the
number of fallback (scheme-B) calls issued by this iteration. -/
def attemptStep (env : FlashEnv) (maxR a : Nat) : AttemptRes × Nat × Nat :=
  match env.probe a with
  | none => (failAttempt maxR a, 0, 0)
  | some _ =>
    if env.fileExists then
      match env.uploadA a with
      | UploadResult.exn e => (handleUploadExn maxR a e, 1, 0)
      | UploadResult.resp s body =>
        if s = 200 then
          if bodyOk body then (AttemptRes.done true, 1, 0)
          else
            match env.uploadB a with
            | UploadResult.exn e => (handleUploadExn maxR a e, 2, 1)
            | UploadResult.resp s2 _ =>
              (if s2 = 200 then AttemptRes.done true else failAttempt maxR a, 2, 1)
        else (failAttempt maxR a, 1, 0)
    else (AttemptRes.done false, 0, 0)

/-- Observable result of a `flash_device` call: the returned boolean plus
instrumentation counting upload POST calls, scheme-B fallback calls and
loop iterations started. -/
structure FlashResult where
  success : Bool
  uploads : Nat
  fallbacks : Nat
  attemptsStarted : Nat
deriving DecidableEq

/-- The retry loop of `flash_device` over the remaining attempt indices,
accumulating the instrumentation counters.  Falling off the list models
the final `return False` after the `for` loop. -/
def flashGo (env : FlashEnv) (maxR : Nat) : List Nat → Nat → Nat → Nat → FlashResult
  | [], u, fb, st => ⟨false, u, fb, st⟩
  | a :: rest, u, fb, st =>
    match attemptStep env maxR a with
    | (AttemptRes.done b, du, dfb) => ⟨b, u + du, fb + dfb, st + 1⟩
    | (AttemptRes.retryNext, du, dfb) => flashGo env maxR rest (u + du) (fb + dfb) (st + 1)

/-- `flash_device(ip, firmware_path, max_retries)` of flasher.py:
iterates attempts `1 .. max_retries`. -/
def flash_device (env : FlashEnv) (maxR : Nat) : FlashResult :=
  flashGo env maxR (List.range' 1 maxR) 0 0 0

/-- The polling loop of `wait_for_device` (flasher.py lines 77-89), with
time made explicit: `get t` is the status of the HTTP GET issued at elapsed
time `t` (`none` models a raised `RequestException`), `cost t` is the time
that GET takes, `interval` is `check_interval` and a successful probe is
followed by the fixed 5 second settle sleep.  The loop runs while the
elapsed time is below `timeout`; `fuel` bounds the number of iterations
(adequate fuel is supplied by `wait_for_device`, since each failed
iteration advances time by at least `interval`).  Returns the boolean
result together with the final elapsed time. -/
def waitLoop (get : Nat → Option Nat) (cost : Nat → Nat) (timeout interval : Nat) :
    Nat → Nat → Bool × Nat
  | 0, t => (false, t)
  | fuel + 1, t =>
    if t < timeout then
      if get t = some 200 then (true, t + cost t + 5)
      else waitLoop get cost timeout interval fuel (t + cost t + interval)
    else (false, t)

/-- The elapsed times at which `waitLoop` issues its HTTP GET probes, by
the same recursion as `waitLoop`. -/
def waitProbeTimes (get : Nat → Option Nat) (cost : Nat → Nat) (timeout interval : Nat) :
    Nat → Nat → List Nat
  | 0, _ => []
  | fuel + 1, t =>
    if t < timeout then
      if get t = some 200 then [t]
      else t :: waitProbeTimes get cost timeout interval fuel (t + cost t + interval)
    else []

/-- `wait_for_device(ip, timeout, check_interval)` of flasher.py, started
at elapsed time 0.  Fuel `timeout` suffices whenever `1 ≤ interval`. -/
def wait_for_device (get : Nat → Option Nat) (cost : Nat → Nat)
    (timeout interval : Nat) : Bool × Nat :=
  waitLoop get cost timeout interval timeout 0

/-- The probe times of a `wait_for_device` call. -/
def wait_probe_times (get : Nat → Option Nat) (cost : Nat → Nat)
    (timeout interval : Nat) : List Nat :=
  waitProbeTimes get cost timeout interval timeout 0

/-- `configure_device(ip, ...)` of flasher.py (lines 108-128), with the
network outcome as an oracle: `none` models a raised `RequestException`,
`some (status, okField)` models a response with that HTTP status whose
parsed JSON `success` field is `okField`.  Both the confirmed and the
unconfirmed branch of the 200 case return `True` (lines 114-121). -/
def configure_device (resp : Option (Nat × Bool)) : Bool :=
  match resp with
  | some (status, okField) =>
    if status = 200 then
      if okField then true else true
    else false
  | none => false

/-- Oracle environment for one per-device worker: the flash-phase oracles,
the reboot-wait GET oracle with its timing, and the configuration-call
outcome. -/
structure WorkerEnv where
  flash : FlashEnv
  get : Nat → Option Nat
  cost : Nat → Nat
  config : Option (Nat × Bool)

/-- The per-device result dictionary `{"ip": ..., "success": ..., "configured": ...}`
built by `flash_and_configure_device`. -/
structure DeviceResult (α : Type) where
  ip : α
  success : Bool
  configured : Bool
deriving DecidableEq

/-- `flash_and_configure_device(ip, firmware_path, max_retries)` of
flasher.py (lines 135-147): flash, then on success wait for reboot with
`timeout=60` and the default `check_interval=2`, then configure. -/
def flash_and_configure_device {α : Type} (env : WorkerEnv) (ip : α) (maxR : Nat) :
    DeviceResult α :=
  if (flash_device env.flash maxR).success = false then
    ⟨ip, false, false⟩
  else if (wait_for_device env.get env.cost 60 2).1 then
    ⟨ip, true, configure_device env.config⟩
  else
    ⟨ip, true, false⟩

/-- The summary counting of `main` (flasher.py lines 319-321):
successes, failures (computed as `len(results) - success_count`) and
configured devices. -/
def summarize {α : Type} (results : List (DeviceResult α)) : Nat × Nat × Nat :=
  let successCount := results.countP (fun r => r.success)
  let failCount := results.length - successCount
  let configuredCount := results.countP (fun r => r.configured)
  (successCount, failCount, configuredCount)

/-- The fan-out of `main` (flasher.py lines 305-316): one
`flash_and_configure_device` worker per discovered address. -/
def runFleet {α : Type} (devices : List α) (envs : α → WorkerEnv) (maxR : Nat) :
    List (DeviceResult α) :=
  devices.map (fun ip => flash_and_configure_device (envs ip) ip maxR)

/-- `WLEDListener.add_service` (flasher.py lines 31-37): when the
advertisement resolves to an address (`some ip`), append it to the device
list; when `get_service_info` returns nothing, leave the list unchanged. -/
def add_service {α : Type} (resolved : Option α) (devices : List α) : List α :=
  match resolved with
  | some ip => devices ++ [ip]
  | none => devices

/-- The device list accumulated by the listener over a sequence of
advertisement events (each event is the resolved address, if any). -/
def collectDevices {α : Type} (events : List (Option α)) : List α :=
  events.foldl (fun devices e => add_service e devices) []

/-- `discover_wled(timeout)` of flasher.py (line 65): `sorted(list(set(devices)))`
over the listener's accumulated device list. -/
def discover_wled {α : Type} [LinearOrder α] (events : List (Option α)) : List α :=
  List.insertionSort (fun a b => a ≤ b) (collectDevices events).dedup

/-! ### Helper lemmas -/

/-- One loop iteration of `flash_device` issues at most two upload POSTs. -/
theorem attemptStep_uploads_le (env : FlashEnv) (maxR a : Nat) :
    (attemptStep env maxR a).2.1 ≤ 2 := by
  unfold attemptStep
  cases env.probe a with
  | none => simp
  | some st =>
    by_cases hf : env.fileExists
    · simp only [hf, if_true]
      cases env.uploadA a with
      | exn e => simp
      | resp s body =>
        by_cases hs : s = 200
        · by_cases hb : bodyOk body
          · simp [hs, hb]
          · cases env.uploadB a with
            | exn e => simp [hs, hb]
            | resp s2 b2 => simp [hs, hb]
        · simp [hs]
    · simp [hf]

/-- The retry loop issues at most two upload POSTs per remaining attempt. -/
theorem flashGo_uploads_le (env : FlashEnv) (maxR : Nat) :
    ∀ (l : List Nat) (u fb st : Nat),
      (flashGo env maxR l u fb st).uploads ≤ u + 2 * l.length := by
  intro l
  induction l with
  | nil => intro u fb st; simp [flashGo]
  | cons a rest ih =>
    intro u fb st
    have hle := attemptStep_uploads_le env maxR a
    rcases hstep : attemptStep env maxR a with ⟨res, du, dfb⟩
    rw [hstep] at hle
    simp only at hle
    cases res with
    | done b =>
      simp only [flashGo, hstep, List.length_cons]
      omega
    | retryNext =>
      have hrec := ih (u + du) (fb + dfb) (st + 1)
      simp only [flashGo, hstep, List.length_cons]
      omega

/-- When the first attempt returns, `flash_device` returns its value with
the first attempt's instrumentation. -/
theorem flash_first_done {env : FlashEnv} {maxR : Nat} {b : Bool} {du dfb : Nat}
    (h : attemptStep env maxR 1 = (AttemptRes.done b, du, dfb)) (hm : 1 ≤ maxR) :
    flash_device env maxR = ⟨b, du, dfb, 1⟩ := by
  obtain ⟨n, rfl⟩ : ∃ n, maxR = n + 1 := ⟨maxR - 1, (Nat.succ_pred_eq_of_pos hm).symm⟩
  have hr : List.range' 1 (n + 1) = 1 :: List.range' 2 n := rfl
  unfold flash_device
  rw [hr]
  simp [flashGo, h]

/-- The reboot-wait loop reports success exactly when one of its issued
probes returns HTTP 200. -/
theorem waitLoop_true_iff (get : Nat → Option Nat) (cost : Nat → Nat)
    (timeout interval : Nat) :
    ∀ fuel t, (waitLoop get cost timeout interval fuel t).1 = true ↔
      ∃ u ∈ waitProbeTimes get cost timeout interval fuel t, get u = some 200 := by
  intro fuel
  induction fuel with
  | zero => intro t; simp [waitLoop, waitProbeTimes]
  | succ fuel ih =>
    intro t
    by_cases ht : t < timeout
    · by_cases hg : get t = some 200
      · simp [waitLoop, waitProbeTimes, ht, hg]
      · simpa [waitLoop, waitProbeTimes, ht, hg] using ih (t + cost t + interval)
    · simp [waitLoop, waitProbeTimes, ht]

/-- On success, the reboot-wait loop returns at the unique successful probe
time plus that probe's duration plus the 5 second settle sleep. -/
theorem waitLoop_success (get : Nat → Option Nat) (cost : Nat → Nat)
    (timeout interval : Nat) :
    ∀ fuel t, (waitLoop get cost timeout interval fuel t).1 = true →
      ∃ u, u ∈ waitProbeTimes get cost timeout interval fuel t ∧ get u = some 200 ∧
        (waitLoop get cost timeout interval fuel t).2 = u + cost u + 5 ∧
        ∀ v ∈ waitProbeTimes get cost timeout interval fuel t,
          get v = some 200 → v = u := by
  intro fuel
  induction fuel with
  | zero => intro t h; simp [waitLoop] at h
  | succ fuel ih =>
    intro t h
    by_cases ht : t < timeout
    · by_cases hg : get t = some 200
      · refine ⟨t, ?_, hg, ?_, ?_⟩ <;> simp [waitLoop, waitProbeTimes, ht, hg]
      · have h' : (waitLoop get cost timeout interval fuel (t + cost t + interval)).1 = true := by
          simpa [waitLoop, ht, hg] using h
        obtain ⟨u, hu, hgu, hsnd, huniq⟩ := ih _ h'
        have hpt : waitProbeTimes get cost timeout interval (fuel + 1) t =
            t :: waitProbeTimes get cost timeout interval fuel (t + cost t + interval) := by
          simp [waitProbeTimes, ht, hg]
        refine ⟨u, ?_, hgu, ?_, ?_⟩
        · rw [hpt]; exact List.mem_cons_of_mem _ hu
        · simpa [waitLoop, ht, hg] using hsnd
        · intro v hv hgv
          rw [hpt, List.mem_cons] at hv
          rcases hv with rfl | hv
          · exact absurd hgv hg
          · exact huniq v hv hgv
    · simp [waitLoop, ht] at h

/-- Every probe the reboot-wait loop issues happens strictly before the
timeout elapses. -/
theorem waitProbeTimes_lt (get : Nat → Option Nat) (cost : Nat → Nat)
    (timeout interval : Nat) :
    ∀ fuel t u, u ∈ waitProbeTimes get cost timeout interval fuel t → u < timeout := by
  intro fuel
  induction fuel with
  | zero => intro t u h; simp [waitProbeTimes] at h
  | succ fuel ih =>
    intro t u h
    by_cases ht : t < timeout
    · by_cases hg : get t = some 200
      · simp [waitProbeTimes, ht, hg] at h
        exact h ▸ ht
      · simp only [waitProbeTimes, ht, if_true, hg, if_false, List.mem_cons] at h
        rcases h with rfl | h
        · exact ht
        · exact ih _ _ h
    · simp [waitProbeTimes, ht] at h

/-- A worker result can be marked configured only when it is marked
flashed: the configuration phase runs only after a successful flash. -/
theorem worker_configured_imp {α : Type} (env : WorkerEnv) (ip : α) (maxR : Nat)
    (h : (flash_and_configure_device env ip maxR).configured = true) :
    (flash_and_configure_device env ip maxR).success = true := by
  unfold flash_and_configure_device at h ⊢
  split at h
  · simp at h
  · split at h <;> simp_all

/-- The listener's accumulated device list is the list of resolved
addresses in arrival order. -/
theorem collectDevices_eq_filterMap {α : Type} (events : List (Option α)) :
    collectDevices events = events.filterMap id := by
  have hgen : ∀ (es : List (Option α)) (acc : List α),
      es.foldl (fun devices e => add_service e devices) acc = acc ++ es.filterMap id := by
    intro es
    induction es with
    | nil => intro acc; simp
    | cons e rest ih =>
      intro acc
      cases e with
      | none =>
        rw [List.foldl_cons, ih]
        simp [add_service, List.filterMap_cons]
      | some ip =>
        rw [List.foldl_cons, ih]
        simp [add_service, List.filterMap_cons]
  simpa using hgen events []

/-- Membership in the discovery result is membership in the accumulated
device list. -/
theorem discover_mem {α : Type} [LinearOrder α] (events : List (Option α)) (x : α) :
    x ∈ discover_wled events ↔ x ∈ collectDevices events := by
  unfold discover_wled
  rw [(List.perm_insertionSort _ _).mem_iff, List.mem_dedup]

/-- The discovery result has no duplicate addresses. -/
theorem discover_nodup {α : Type} [LinearOrder α] (events : List (Option α)) :
    (discover_wled events).Nodup := by
  unfold discover_wled
  exact (List.perm_insertionSort _ _).nodup_iff.2 (List.nodup_dedup _)

/-- The discovery result is sorted. -/
theorem discover_sorted {α : Type} [LinearOrder α] (events : List (Option α)) :
    List.Sorted (fun a b => a ≤ b) (discover_wled events) := by
  unfold discover_wled
  exact List.sorted_insertionSort _ _

/-! ### Claim theorems -/

/-- Environment exhibiting a scheme-A HTTP 200 with unrecognized body
followed by a scheme-B HTTP 200 with an unrecognized, non-empty body. -/
def envC1 : FlashEnv :=
  ⟨true, fun _ => some 200, fun _ => UploadResult.resp 200 (("OK!").data),
    fun _ => UploadResult.resp 200 (("garbage").data)⟩

/-- C1 counterexample: the claim says a scheme-B HTTP 200 with an
unrecognized body makes the attempt fail, but the code returns success on
any scheme-B HTTP 200: here scheme A returns 200 "OK!" (unrecognized) and
scheme B returns 200 "garbage" (unrecognized, non-empty), yet the upload
reports success after exactly one fallback call. -/
theorem flash_fallback_body_ignored_counterexample :
    bodyOk (("garbage").data) = false ∧ flash_device envC1 1 = ⟨true, 2, 1, 1⟩ := by
  constructor
  · decide
  · decide

/-- C1 amended: when the scheme-A upload returns HTTP 200 with an
unrecognized body, the attempt retries exactly once with field-name scheme
B, and (when scheme B yields an HTTP response) the attempt's outcome is
success exactly when the scheme-B status is 200, regardless of the
scheme-B body; a scheme-B non-200 makes the attempt fail. -/
theorem flash_fallback_any_200 (env : FlashEnv) (maxR a st s2 : Nat)
    (body b2 : List Char)
    (hp : env.probe a = some st) (hf : env.fileExists = true)
    (hA : env.uploadA a = UploadResult.resp 200 body) (hb : bodyOk body = false)
    (hB : env.uploadB a = UploadResult.resp s2 b2) :
    attemptStep env maxR a =
      ((if s2 = 200 then AttemptRes.done true else failAttempt maxR a), 2, 1) := by
  simp [attemptStep, hp, hf, hA, hb, hB]

/-- Environment realizing the spec's scenario: scheme A answers 200 "OK"
and scheme B answers 200 "Update Success". -/
def envC1w : FlashEnv :=
  ⟨true, fun _ => some 200, fun _ => UploadResult.resp 200 (("OK").data),
    fun _ => UploadResult.resp 200 (("Update Success").data)⟩

theorem flash_fallback_any_200_witness :
    attemptStep envC1w 1 1 = (AttemptRes.done true, 2, 1) := by
  have h := flash_fallback_any_200 envC1w 1 1 200 200 (("OK").data)
    (("Update Success").data) rfl rfl rfl (by decide) rfl
  simpa using h

/-- Environment whose pre-flash reachability GET answers HTTP 404. -/
def envC2 : FlashEnv :=
  ⟨true, fun _ => some 404, fun _ => UploadResult.resp 200 ([]),
    fun _ => UploadResult.resp 500 ([])⟩

/-- C2 counterexample: the claim says every reachability probe (including
the uploader's pre-flash sanity check) reports unreachable on a non-200
status, but the pre-flash check of `flash_device` never inspects the
status code: with the probe answering 404 the upload proceeds (one POST is
issued) and succeeds, instead of the attempt being treated as
unreachable. -/
theorem flash_precheck_ignores_status_counterexample :
    envC2.probe 1 = some 404 ∧ flash_device envC2 1 = ⟨true, 1, 0, 1⟩ := by
  constructor
  · rfl
  · decide

/-- C2 amended: the reboot waiter's poll reports the device reachable only
when its HTTP GET returns status 200 (so a successful wait implies some
probe before the timeout returned 200), while the uploader's pre-flash
sanity check treats any HTTP response — regardless of status — as
reachable (the upload POST is issued) and treats only a network error
(a raised request exception) as unreachable (failing the attempt with no
POST issued). -/
theorem probe_reachability_amended (get : Nat → Option Nat) (cost : Nat → Nat)
    (timeout interval : Nat) (env1 env2 : FlashEnv) (maxR1 a1 maxR2 a2 st : Nat)
    (hw : (wait_for_device get cost timeout interval).1 = true)
    (h1p : env1.probe a1 = some st) (h1f : env1.fileExists = true)
    (h2p : env2.probe a2 = none) :
    (∃ u, u < timeout ∧ get u = some 200) ∧
      1 ≤ (attemptStep env1 maxR1 a1).2.1 ∧
      attemptStep env2 maxR2 a2 = (failAttempt maxR2 a2, 0, 0) := by
  refine ⟨?_, ?_, ?_⟩
  · obtain ⟨u, hu, hgu⟩ :=
      (waitLoop_true_iff get cost timeout interval timeout 0).1 hw
    exact ⟨u, waitProbeTimes_lt get cost timeout interval timeout 0 u hu, hgu⟩
  · unfold attemptStep
    rw [h1p, h1f]
    simp only [if_true]
    cases hA : env1.uploadA a1 with
    | resp s body =>
      by_cases hs : s = 200
      · by_cases hbo : bodyOk body
        · simp [hs, hbo]
        · cases hB : env1.uploadB a1 with
          | resp s2 b2 => simp [hs, hbo]
          | exn e => simp [hs, hbo]
      · simp [hs]
    | exn e => simp
  · simp [attemptStep, h2p]

/-- Reboot-wait oracle for the C2 witness: 404 until the probe at time 3
answers 200. -/
def getC2w : Nat → Option Nat := fun t => if t = 3 then some 200 else some 404

/-- Flash environment for the C2 witness whose probe answers 404. -/
def envC2a : FlashEnv :=
  ⟨true, fun _ => some 404, fun _ => UploadResult.resp 200 ([]),
    fun _ => UploadResult.resp 200 ([])⟩

/-- Flash environment for the C2 witness whose probe raises. -/
def envC2b : FlashEnv :=
  ⟨true, fun _ => none, fun _ => UploadResult.resp 200 ([]),
    fun _ => UploadResult.resp 200 ([])⟩

theorem probe_reachability_amended_witness :
    (∃ u, u < 10 ∧ getC2w u = some 200) ∧ 1 ≤ (attemptStep envC2a 1 1).2.1 ∧
      attemptStep envC2b 1 1 = (failAttempt 1 1, 0, 0) :=
  probe_reachability_amended getC2w (fun _ => 1) 10 2 envC2a envC2b 1 1 1 1 404
    (by decide) rfl rfl rfl

/-- C3: a transport-level abrupt disconnection during the upload — a
`ChunkedEncodingError`, or a `ConnectionError`/`ReadTimeout` whose message
signals connection reset, remote disconnection or read timeout after send —
makes the attempt return success immediately: the attempt's outcome is
`done true` with a single POST and no fallback, and when it is the first
attempt the whole `flash_device` call returns success after exactly one
attempt, so no further attempts are made. -/
theorem flash_abrupt_disconnect_success (env : FlashEnv) (maxR a st : Nat) (e : PyExn)
    (hp : env.probe a = some st) (hf : env.fileExists = true)
    (hA : env.uploadA a = UploadResult.exn e)
    (hsig : isChunked e.kind = true ∨
      ((isConnectionError e.kind = true ∨ isReadTimeout e.kind = true) ∧
        rebootSig e.msg = true)) :
    attemptStep env maxR a = (AttemptRes.done true, 1, 0) ∧
      (a = 1 → 1 ≤ maxR → flash_device env maxR = ⟨true, 1, 0, 1⟩) := by
  have hdone : handleUploadExn maxR a e = AttemptRes.done true := by
    rcases hsig with hc | ⟨hk, hs⟩
    · simp [handleUploadExn, hc]
    · cases hkind : e.kind <;>
        simp_all [handleUploadExn, isChunked, isConnectionError, isReadTimeout]
  have hstep : attemptStep env maxR a = (AttemptRes.done true, 1, 0) := by
    simp [attemptStep, hp, hf, hA, hdone]
  refine ⟨hstep, fun ha hm => ?_⟩
  subst ha
  exact flash_first_done hstep hm

/-- Environment whose scheme-A upload raises a `ConnectionError` carrying
the "Connection reset" signature. -/
def envC3w : FlashEnv :=
  ⟨true, fun _ => some 200,
    fun _ => UploadResult.exn ⟨ExKind.connectionError, ("Connection reset by peer").data⟩,
    fun _ => UploadResult.resp 500 ([])⟩

theorem flash_abrupt_disconnect_success_witness :
    attemptStep envC3w 2 1 = (AttemptRes.done true, 1, 0) ∧
      (1 = 1 → 1 ≤ 2 → flash_device envC3w 2 = ⟨true, 1, 0, 1⟩) :=
  flash_abrupt_disconnect_success envC3w 2 1 200
    ⟨ExKind.connectionError, ("Connection reset by peer").data⟩ rfl rfl rfl
    (Or.inr ⟨Or.inl rfl, by decide⟩)

/-- Environment with a missing firmware file and a device that never
answers the pre-flash reachability check. -/
def envC4 : FlashEnv :=
  ⟨false, fun _ => none, fun _ => UploadResult.resp 500 ([]),
    fun _ => UploadResult.resp 500 ([])⟩

/-- C4 counterexample: the claim says a missing firmware file aborts
during the first attempt with no further retry attempts, but the file is
only opened after the pre-flash reachability check succeeds: when the
device is unreachable, the code retries — here with `max_retries = 2` the
loop starts two attempts (zero POSTs are issued, but the abort is not
during the first attempt). -/
theorem flash_missing_file_counterexample :
    envC4.fileExists = false ∧ flash_device envC4 2 = ⟨false, 0, 0, 2⟩ := by
  constructor
  · rfl
  · decide

/-- C4 amended: when the firmware file does not exist and the pre-flash
reachability check of the first attempt receives an HTTP response, the
uploader returns the non-retry failure outcome during the first attempt,
with zero upload POST calls and no further attempts regardless of how many
attempts remain. -/
theorem flash_missing_file_fatal (env : FlashEnv) (maxR st : Nat)
    (hm : 1 ≤ maxR) (hf : env.fileExists = false) (hp : env.probe 1 = some st) :
    flash_device env maxR = ⟨false, 0, 0, 1⟩ := by
  have hstep : attemptStep env maxR 1 = (AttemptRes.done false, 0, 0) := by
    simp [attemptStep, hp, hf]
  exact flash_first_done hstep hm

/-- Environment with a missing firmware file and a reachable device. -/
def envC4w : FlashEnv :=
  ⟨false, fun _ => some 200, fun _ => UploadResult.resp 500 ([]),
    fun _ => UploadResult.resp 500 ([])⟩

theorem flash_missing_file_fatal_witness :
    flash_device envC4w 3 = ⟨false, 0, 0, 1⟩ :=
  flash_missing_file_fatal envC4w 3 200 (by decide) rfl rfl

/-- C5: `wait_for_device` returns false exactly when none of the probes it
issues returns HTTP 200; all issued probes happen before the timeout
elapses; and on a true result the returned completion time is the unique
successful probe's start time plus that probe's duration plus the fixed
5 second settle delay — so at least the settle delay elapses after the
first successful probe before the function returns. -/
theorem wait_for_device_spec (get : Nat → Option Nat) (cost : Nat → Nat)
    (timeout interval : Nat) :
    ((wait_for_device get cost timeout interval).1 = false ↔
      ∀ u ∈ wait_probe_times get cost timeout interval, ¬ get u = some 200) ∧
    ((wait_for_device get cost timeout interval).1 = true →
      ∃ u, u ∈ wait_probe_times get cost timeout interval ∧ get u = some 200 ∧
        (wait_for_device get cost timeout interval).2 = u + cost u + 5 ∧
        ∀ v ∈ wait_probe_times get cost timeout interval,
          get v = some 200 → v = u) ∧
    (∀ u ∈ wait_probe_times get cost timeout interval, u < timeout) := by
  unfold wait_for_device wait_probe_times
  have h1 := waitLoop_true_iff get cost timeout interval timeout 0
  refine ⟨?_, waitLoop_success get cost timeout interval timeout 0,
    waitProbeTimes_lt get cost timeout interval timeout 0⟩
  constructor
  · intro hfalse u hu hgu
    have htrue : (waitLoop get cost timeout interval timeout 0).1 = true :=
      h1.2 ⟨u, hu, hgu⟩
    rw [hfalse] at htrue
    exact Bool.noConfusion htrue
  · intro hall
    cases hres : (waitLoop get cost timeout interval timeout 0).1 with
    | false => rfl
    | true =>
      obtain ⟨u, hu, hgu⟩ := h1.1 hres
      exact absurd hgu (hall u hu)

/-- C6: over a whole `flash_device` call with `max_retries = maxR`, the
total number of upload POST calls issued is at most `2 * maxR` — at most
one scheme-A and one scheme-B upload per attempt. -/
theorem flash_upload_call_bound (env : FlashEnv) (maxR : Nat) :
    (flash_device env maxR).uploads ≤ 2 * maxR := by
  have h := flashGo_uploads_le env maxR (List.range' 1 maxR) 0 0 0
  simpa [flash_device, List.length_range'] using h

/-- C7: for every fleet run, the summary counts satisfy
flashed-successfully plus failed equals the total number of devices, and
configured is at most flashed-successfully. -/
theorem fleet_summary_invariant {α : Type} (devices : List α)
    (envs : α → WorkerEnv) (maxR : Nat) :
    (summarize (runFleet devices envs maxR)).1 +
        (summarize (runFleet devices envs maxR)).2.1 = devices.length ∧
      (summarize (runFleet devices envs maxR)).2.2 ≤
        (summarize (runFleet devices envs maxR)).1 := by
  constructor
  · have hle : (runFleet devices envs maxR).countP (fun r => r.success) ≤
        (runFleet devices envs maxR).length := List.countP_le_length _
    have hlen : (runFleet devices envs maxR).length = devices.length := by
      simp [runFleet]
    simp only [summarize]
    omega
  · simp only [summarize]
    refine List.countP_mono_left ?_
    intro r hr hc
    obtain ⟨ip, _, rfl⟩ := List.mem_map.1 hr
    exact worker_configured_imp _ _ _ hc

/-- C8: a per-device worker always terminates with a `DeviceResult` record
carrying the worker's own address together with its flashed and configured
flags, for every possible sequence of network outcomes and file states
captured by the worker environment. -/
theorem worker_always_returns (α : Type) (env : WorkerEnv) (ip : α) (maxR : Nat) :
    ∃ flashed configured,
      flash_and_configure_device env ip maxR = ⟨ip, flashed, configured⟩ := by
  unfold flash_and_configure_device
  split
  · exact ⟨false, false, rfl⟩
  · split
    · exact ⟨true, configure_device env.config, rfl⟩
    · exact ⟨true, false, rfl⟩

/-- C9: the address list returned by discovery has no duplicates and is
sorted, and it depends only on which addresses were collected — so
repeated advertisements resolving to an already-collected address yield
the same returned list as a single advertisement. -/
theorem discover_nodup_sorted_idempotent {α : Type} [LinearOrder α]
    (events events2 : List (Option α))
    (hmem : ∀ x, x ∈ collectDevices events ↔ x ∈ collectDevices events2) :
    (discover_wled events).Nodup ∧
      List.Sorted (fun a b => a ≤ b) (discover_wled events) ∧
      discover_wled events = discover_wled events2 := by
  refine ⟨discover_nodup events, discover_sorted events, ?_⟩
  have hperm : List.Perm (discover_wled events) (discover_wled events2) :=
    (List.perm_ext_iff_of_nodup (discover_nodup events) (discover_nodup events2)).2
      (fun x => by rw [discover_mem, discover_mem]; exact hmem x)
  exact List.eq_of_perm_of_sorted hperm (discover_sorted events) (discover_sorted events2)

/-- Discovery event sequence with a repeated advertisement and an
unresolvable advertisement. -/
def eventsC9 : List (Option (Fin 3)) := [some 2, none, some 0, some 2]

/-- The same discovery events with the duplicate advertisement dropped. -/
def eventsC9b : List (Option (Fin 3)) := [some 2, some 0]

theorem discover_nodup_sorted_idempotent_witness :
    (discover_wled eventsC9).Nodup ∧
      List.Sorted (fun a b => a ≤ b) (discover_wled eventsC9) ∧
      discover_wled eventsC9 = discover_wled eventsC9b :=
  discover_nodup_sorted_idempotent eventsC9 eventsC9b (by decide)

/-- C10: a scheme-A HTTP 200 response whose lowercased body contains the
substring "success" or the substring "update", or whose body is empty
after stripping whitespace, is classified as success on the first attempt
with a single POST and zero fallback calls — so a failure-indicating body
such as "update failed" is also classified as success. -/
theorem flash_lenient_200_success (env : FlashEnv) (maxR st : Nat) (body : List Char)
    (hm : 1 ≤ maxR) (hp : env.probe 1 = some st) (hf : env.fileExists = true)
    (hA : env.uploadA 1 = UploadResult.resp 200 body)
    (hb : containsSub kwSuccess (lowerL body) = true ∨
      containsSub kwUpdate (lowerL body) = true ∨ pyStrip body = []) :
    flash_device env maxR = ⟨true, 1, 0, 1⟩ := by
  have hok : bodyOk body = true := by
    rcases hb with h | h | h <;> simp [bodyOk, h]
  have hstep : attemptStep env maxR 1 = (AttemptRes.done true, 1, 0) := by
    simp [attemptStep, hp, hf, hA, hok]
  exact flash_first_done hstep hm

/-- Environment whose device answers the scheme-A upload with HTTP 200 and
the failure-indicating body "update failed". -/
def envC10w : FlashEnv :=
  ⟨true, fun _ => some 200, fun _ => UploadResult.resp 200 (("update failed").data),
    fun _ => UploadResult.resp 500 ([])⟩

theorem flash_lenient_200_success_witness :
    flash_device envC10w 2 = ⟨true, 1, 0, 1⟩ :=
  flash_lenient_200_success envC10w 2 200 (("update failed").data) (by decide) rfl rfl
    rfl (Or.inr (Or.inl (by decide)))

end BulkFlashWled
